import Mathlib

/-!
Verification of the Mighty Mule FM231 driveway-alarm decoder
(`src/rtl_433/devices/mighty_mulefm231.c`).

The decoder consumes a host-provided bit buffer (rows of raw bytes with a
row count and per-row bit lengths) and either aborts with a host abort code
or emits one structured key/value record.  The embedding below mirrors the
C routine `mightymule_fm231_decode` statement by statement; bytes are
natural numbers reduced mod 256 at each read, matching the `uint8_t`
storage of the buffer.
-/

namespace MightyMule

/-- Modelled from the spec: the host framework's bit buffer abstraction
(`bitbuffer_t` from the host's `decoder.h`, not part of this repository's
sources): a row count, a per-row bit length, and per-row raw byte storage.
Bytes are stored as `uint8_t`, which the embedding models by reducing each
byte mod 256 at every read. -/
structure bitbuffer_t where
  num_rows : Nat
  bits_per_row : List Nat
  bb : List (List Nat)
deriving DecidableEq, Repr

/-- Modelled from the spec: the host framework's abort code for a
structural mismatch (wrong row count), called `AbortEarly` in the spec.
Its concrete value is host-defined; only its identity matters here. -/
def DECODE_ABORT_EARLY : Int := -2

/-- Modelled from the spec: the host framework's abort code for a length
mismatch, called `AbortLength` in the spec.  Distinct from
`DECODE_ABORT_EARLY` and from the success code 1. -/
def DECODE_ABORT_LENGTH : Int := -1

/-- A value in a structured output record: the host's `data_make` takes
string- or integer-valued fields. -/
inductive data_value where
  | str (s : String)
  | int (i : Int)
deriving DecidableEq, Repr

/-- A structured output record: an ordered list of key/value pairs, as
built by the host's `data_make`. -/
abbrev data_t := List (String × data_value)

/-- `#define MIGHTYMULE_FM231_BITLEN 9` from the source. -/
def MIGHTYMULE_FM231_BITLEN : Nat := 9

/-- Shallow embedding of `mightymule_fm231_decode`.  Returns the C return
code together with the list of records passed to `decoder_output_data`
(empty on abort, a single record on success).  The diagnostic
`decoder_logf` call is telemetry with no functional effect and is not
modelled. -/
def mightymule_fm231_decode (bitbuffer : bitbuffer_t) : Int × List data_t :=
  if bitbuffer.num_rows ≠ 1 then
    (DECODE_ABORT_EARLY, [])
  else if bitbuffer.bits_per_row.getD 0 0 ≠ MIGHTYMULE_FM231_BITLEN then
    (DECODE_ABORT_LENGTH, [])
  else
    let b := bitbuffer.bb.getD 0 []
    let data : Nat := ((b.getD 0 0 % 256) <<< 1) ||| ((b.getD 1 0 % 256) >>> 7)
    let battery_raw : Nat := (data >>> 4) &&& 0x01
    let battery_ok : Int := if battery_raw = 0 then 1 else 0
    let id : Int := Int.ofNat (data &&& 0x0F)
    (1, [[("model", data_value.str "MightyMule-FM231"),
          ("id", data_value.int id),
          ("battery_ok", data_value.int battery_ok)]])

/-- The static field-name list `output_fields` from the source (the C
`NULL` array terminator is represented by the end of the Lean list). -/
def output_fields : List String := ["model", "id", "battery_ok"]

/-- State-passing embedding of the same routine: the buffer is threaded
through explicitly, so that the absence of stores through the
`bitbuffer_t *` argument in the C body becomes provable.  Every branch
returns the buffer exactly as the corresponding C statements leave it (no
C statement writes through the pointer). -/
def mightymule_fm231_decode_st (bitbuffer : bitbuffer_t) :
    (Int × List data_t) × bitbuffer_t :=
  if bitbuffer.num_rows ≠ 1 then
    ((DECODE_ABORT_EARLY, []), bitbuffer)
  else if bitbuffer.bits_per_row.getD 0 0 ≠ MIGHTYMULE_FM231_BITLEN then
    ((DECODE_ABORT_LENGTH, []), bitbuffer)
  else
    let b := bitbuffer.bb.getD 0 []
    let data : Nat := ((b.getD 0 0 % 256) <<< 1) ||| ((b.getD 1 0 % 256) >>> 7)
    let battery_raw : Nat := (data >>> 4) &&& 0x01
    let battery_ok : Int := if battery_raw = 0 then 1 else 0
    let id : Int := Int.ofNat (data &&& 0x0F)
    ((1, [[("model", data_value.str "MightyMule-FM231"),
           ("id", data_value.int id),
           ("battery_ok", data_value.int battery_ok)]]), bitbuffer)

/-- Access-checked variant of the extraction: the two byte reads `b[0]`
and `b[1]` go through `List.get?` and the whole decode fails with `none`
if either read is out of bounds of the row's byte storage. -/
def mightymule_fm231_decode_checked (bitbuffer : bitbuffer_t) :
    Option (Int × List data_t) :=
  if bitbuffer.num_rows ≠ 1 then
    some (DECODE_ABORT_EARLY, [])
  else if bitbuffer.bits_per_row.getD 0 0 ≠ MIGHTYMULE_FM231_BITLEN then
    some (DECODE_ABORT_LENGTH, [])
  else
    match (bitbuffer.bb.getD 0 []).get? 0, (bitbuffer.bb.getD 0 []).get? 1 with
    | some c0, some c1 =>
      let data : Nat := ((c0 % 256) <<< 1) ||| ((c1 % 256) >>> 7)
      let battery_raw : Nat := (data >>> 4) &&& 0x01
      let battery_ok : Int := if battery_raw = 0 then 1 else 0
      let id : Int := Int.ofNat (data &&& 0x0F)
      some (1, [[("model", data_value.str "MightyMule-FM231"),
                 ("id", data_value.int id),
                 ("battery_ok", data_value.int battery_ok)]])
    | _, _ => none

/-- Bit `i` of a row of bytes, `i` counted 0-indexed from the
most-significant end: bit `7 - i % 8` of byte `i / 8`, the bit numbering
used by the host bitbuffer.  This is the spec-side view of the row. -/
def rowBit (b : List Nat) (i : Nat) : Nat :=
  ((b.getD (i / 8) 0 % 256) >>> (7 - i % 8)) &&& 1

/-- The unsigned value of the first `n` bits of a row read
most-significant-bit first: the spec-side definition of `data`. -/
def rowValueMSB (b : List Nat) : Nat → Nat
  | 0 => 0
  | n + 1 => 2 * rowValueMSB b n + rowBit b n

lemma rowBit_lt_two (b : List Nat) (i : Nat) : rowBit b i < 2 := by
  unfold rowBit
  rw [Nat.and_one_is_mod]
  exact Nat.mod_lt _ (by norm_num)

lemma rowValueMSB_nine (b : List Nat) :
    rowValueMSB b 9 =
      2 * (2 * (2 * (2 * (2 * (2 * (2 * (2 * (2 * 0 + rowBit b 0)
        + rowBit b 1) + rowBit b 2) + rowBit b 3) + rowBit b 4)
        + rowBit b 5) + rowBit b 6) + rowBit b 7) + rowBit b 8 := rfl

lemma lor_double_bit (a c : Nat) (h : c < 2) : (2 * a) ||| c = 2 * a + c := by
  interval_cases c
  · simp
  · apply Nat.eq_of_testBit_eq
    intro i
    rw [Nat.testBit_lor]
    cases i with
    | zero => simp [Nat.testBit_zero, Nat.mul_add_mod]
    | succ j => simp [Nat.testBit_succ, Nat.mul_add_div]

lemma data_eq_rowValue (b : List Nat) :
    ((b.getD 0 0 % 256) <<< 1) ||| ((b.getD 1 0 % 256) >>> 7) =
      rowValueMSB b 9 := by
  rw [rowValueMSB_nine]
  simp only [rowBit, Nat.reduceDiv, Nat.reduceMod, Nat.reduceSub]
  have hy : ((b.getD 1 0 % 256) >>> 7) < 2 := by
    rw [Nat.shiftRight_eq_div_pow]
    omega
  rw [Nat.shiftLeft_eq, pow_one, mul_comm, lor_double_bit _ _ hy]
  simp only [Nat.shiftRight_eq_div_pow, Nat.and_one_is_mod]
  norm_num
  omega

/-- The row-count check fails: the decoder aborts with `DECODE_ABORT_EARLY`
and emits nothing. -/
lemma decode_abort_early_helper (bb : bitbuffer_t) (h : bb.num_rows ≠ 1) :
    mightymule_fm231_decode bb = (DECODE_ABORT_EARLY, []) := by
  unfold mightymule_fm231_decode
  rw [if_pos h]

/-- The row-count check passes but the length check fails: the decoder
aborts with `DECODE_ABORT_LENGTH` and emits nothing. -/
lemma decode_abort_length_helper (bb : bitbuffer_t) (h1 : bb.num_rows = 1)
    (h2 : bb.bits_per_row.getD 0 0 ≠ 9) :
    mightymule_fm231_decode bb = (DECODE_ABORT_LENGTH, []) := by
  unfold mightymule_fm231_decode MIGHTYMULE_FM231_BITLEN
  rw [if_neg (by omega), if_pos h2]

/-- Validation passes: the decoder returns 1 and emits exactly the record
determined by the 9-bit MSB-first value of row 0. -/
lemma decode_valid (bb : bitbuffer_t) (h1 : bb.num_rows = 1)
    (h2 : bb.bits_per_row.getD 0 0 = 9) :
    mightymule_fm231_decode bb =
      (1, [[("model", data_value.str "MightyMule-FM231"),
            ("id", data_value.int
              (Int.ofNat (rowValueMSB (bb.bb.getD 0 []) 9 &&& 0x0F))),
            ("battery_ok", data_value.int
              (if (rowValueMSB (bb.bb.getD 0 []) 9 >>> 4) &&& 0x01 = 0
               then 1 else 0))]]) := by
  unfold mightymule_fm231_decode MIGHTYMULE_FM231_BITLEN
  rw [if_neg (by omega), if_neg (by omega)]
  simp only [data_eq_rowValue]

/-- The state-passing embedding never changes the buffer. -/
lemma decode_st_snd (bb : bitbuffer_t) :
    (mightymule_fm231_decode_st bb).2 = bb := by
  unfold mightymule_fm231_decode_st
  split
  · rfl
  · split
    · rfl
    · rfl

/-- The state-passing embedding computes the same code and records as the
pure embedding. -/
lemma decode_st_fst (bb : bitbuffer_t) :
    (mightymule_fm231_decode_st bb).1 = mightymule_fm231_decode bb := by
  unfold mightymule_fm231_decode_st mightymule_fm231_decode
  split
  · rfl
  · split
    · rfl
    · rfl

lemma and_fifteen_lt (n : Nat) : n &&& 0x0F < 16 := by
  have h : n &&& 15 = n % 16 := by
    simpa using Nat.and_pow_two_sub_one_eq_mod n 4
  omega

lemma and_fifteen_eq_mod (n : Nat) : n &&& 0x0F = n % 16 := by
  simpa using Nat.and_pow_two_sub_one_eq_mod n 4

/-- Rows agreeing on bits 4..8 (MSB-first) have 9-bit values that agree
mod 32, i.e. on their low five bits. -/
lemma rowValue_mod32_eq (b1 b2 : List Nat)
    (h : ∀ i, 4 ≤ i → i ≤ 8 → rowBit b1 i = rowBit b2 i) :
    rowValueMSB b1 9 % 32 = rowValueMSB b2 9 % 32 := by
  have h4 := h 4 (by norm_num) (by norm_num)
  have h5 := h 5 (by norm_num) (by norm_num)
  have h6 := h 6 (by norm_num) (by norm_num)
  have h7 := h 7 (by norm_num) (by norm_num)
  have h8 := h 8 (by norm_num) (by norm_num)
  have p4 := rowBit_lt_two b1 4
  have p5 := rowBit_lt_two b1 5
  have p6 := rowBit_lt_two b1 6
  have p7 := rowBit_lt_two b1 7
  have p8 := rowBit_lt_two b1 8
  have q4 := rowBit_lt_two b2 4
  have q5 := rowBit_lt_two b2 5
  have q6 := rowBit_lt_two b2 6
  have q7 := rowBit_lt_two b2 7
  have q8 := rowBit_lt_two b2 8
  rw [rowValueMSB_nine, rowValueMSB_nine]
  omega

/-- Concrete buffer: one row of 9 bits, all zero (`0b000000000`). -/
def bufA : bitbuffer_t := ⟨1, [9], [[0x00, 0x00]]⟩

/-- Concrete buffer: one row of 9 bits, `0b000010000`. -/
def bufB : bitbuffer_t := ⟨1, [9], [[0x08, 0x00]]⟩

/-- Concrete buffer: one row of 9 bits, `0b000001111`. -/
def bufC : bitbuffer_t := ⟨1, [9], [[0x07, 0x80]]⟩

/-- Concrete buffer: one row of 9 bits, `0b111111111`. -/
def bufD : bitbuffer_t := ⟨1, [9], [[0xFF, 0x80]]⟩

/-- Concrete buffer with two rows. -/
def bufTwoRows : bitbuffer_t := ⟨2, [9, 9], [[0x00, 0x00], [0x00, 0x00]]⟩

/-- Concrete buffer with a single row of 8 bits. -/
def bufEight : bitbuffer_t := ⟨1, [8], [[0x00]]⟩

/-- Concrete buffer: one row of 9 bits, `0b111110000` — same bits 4..8 as
`bufB` but with all four preamble bits flipped. -/
def bufBalt : bitbuffer_t := ⟨1, [9], [[0xF8, 0x00]]⟩

/-- C1: for every bitbuffer that passes validation (exactly one row of
exactly 9 bits), the decoder computes `data` as the 9-bit unsigned value
read most-significant-bit first from the row and emits a record with
`id = data &&& 0xF` (taken directly from the wire, no bit-reversal) and
`battery_ok = 1 - ((data >>> 4) &&& 1)`. -/
theorem C1_valid_extraction (bitbuffer : bitbuffer_t)
    (h1 : bitbuffer.num_rows = 1)
    (h2 : bitbuffer.bits_per_row.getD 0 0 = 9) :
    ∃ id battery_ok : Int,
      mightymule_fm231_decode bitbuffer =
        (1, [[("model", data_value.str "MightyMule-FM231"),
              ("id", data_value.int id),
              ("battery_ok", data_value.int battery_ok)]]) ∧
      id = Int.ofNat (rowValueMSB (bitbuffer.bb.getD 0 []) 9 &&& 0x0F) ∧
      battery_ok =
        1 - Int.ofNat ((rowValueMSB (bitbuffer.bb.getD 0 []) 9 >>> 4) &&& 0x01) := by
  refine ⟨_, _, decode_valid _ h1 h2, rfl, ?_⟩
  have hx : (rowValueMSB (bitbuffer.bb.getD 0 []) 9 >>> 4) &&& 0x01 < 2 := by
    rw [Nat.and_one_is_mod]
    omega
  by_cases h : (rowValueMSB (bitbuffer.bb.getD 0 []) 9 >>> 4) &&& 0x01 = 0
  · rw [if_pos h, h]
    decide
  · have h1v : (rowValueMSB (bitbuffer.bb.getD 0 []) 9 >>> 4) &&& 0x01 = 1 := by
      omega
    rw [if_neg h, h1v]
    decide

/-- Witness for C1 at the concrete buffer `bufB` (`0b000010000`). -/
theorem C1_witness :
    bufB.num_rows = 1 ∧ bufB.bits_per_row.getD 0 0 = 9 ∧
    (∃ id battery_ok : Int,
      mightymule_fm231_decode bufB =
        (1, [[("model", data_value.str "MightyMule-FM231"),
              ("id", data_value.int id),
              ("battery_ok", data_value.int battery_ok)]]) ∧
      id = Int.ofNat (rowValueMSB (bufB.bb.getD 0 []) 9 &&& 0x0F) ∧
      battery_ok =
        1 - Int.ofNat ((rowValueMSB (bufB.bb.getD 0 []) 9 >>> 4) &&& 0x01)) :=
  ⟨rfl, rfl, C1_valid_extraction bufB rfl rfl⟩

/-- C2: a bitbuffer whose row count is not exactly 1 makes the decoder
return `DECODE_ABORT_EARLY` with no record emitted, regardless of the
rows' bit lengths (the row-count check precedes the length check and the
extraction). -/
theorem C2_abort_on_row_count (bitbuffer : bitbuffer_t)
    (h : bitbuffer.num_rows ≠ 1) :
    mightymule_fm231_decode bitbuffer = (DECODE_ABORT_EARLY, []) :=
  decode_abort_early_helper bitbuffer h

/-- Witness for C2 at the concrete two-row buffer. -/
theorem C2_witness :
    bufTwoRows.num_rows ≠ 1 ∧
    mightymule_fm231_decode bufTwoRows = (DECODE_ABORT_EARLY, []) :=
  ⟨by decide, C2_abort_on_row_count bufTwoRows (by decide)⟩

/-- C3: a bitbuffer with exactly one row whose bit length is not exactly 9
makes the decoder return `DECODE_ABORT_LENGTH` with no record emitted. -/
theorem C3_abort_on_length (bitbuffer : bitbuffer_t)
    (h1 : bitbuffer.num_rows = 1)
    (h2 : bitbuffer.bits_per_row.getD 0 0 ≠ 9) :
    mightymule_fm231_decode bitbuffer = (DECODE_ABORT_LENGTH, []) :=
  decode_abort_length_helper bitbuffer h1 h2

/-- Witness for C3 at the concrete single-row 8-bit buffer. -/
theorem C3_witness :
    bufEight.num_rows = 1 ∧ bufEight.bits_per_row.getD 0 0 ≠ 9 ∧
    mightymule_fm231_decode bufEight = (DECODE_ABORT_LENGTH, []) :=
  ⟨rfl, by decide, C3_abort_on_length bufEight rfl (by decide)⟩

/-- C4: the decoder returns 1 iff validation passed; in exactly that case
it emits exactly one record with keys `model` (the constant string
"MightyMule-FM231"), `id` (an integer in [0,15]) and `battery_ok` (0 or
1); on either abort return no record is emitted. -/
theorem C4_return_contract (bitbuffer : bitbuffer_t) :
    ((mightymule_fm231_decode bitbuffer).1 = 1 ↔
      bitbuffer.num_rows = 1 ∧ bitbuffer.bits_per_row.getD 0 0 = 9) ∧
    ((mightymule_fm231_decode bitbuffer).1 = 1 →
      ∃ id battery_ok : Int,
        0 ≤ id ∧ id ≤ 15 ∧ (battery_ok = 0 ∨ battery_ok = 1) ∧
        (mightymule_fm231_decode bitbuffer).2 =
          [[("model", data_value.str "MightyMule-FM231"),
            ("id", data_value.int id),
            ("battery_ok", data_value.int battery_ok)]]) ∧
    ((mightymule_fm231_decode bitbuffer).1 ≠ 1 →
      (mightymule_fm231_decode bitbuffer).2 = []) := by
  by_cases h1 : bitbuffer.num_rows = 1
  · by_cases h2 : bitbuffer.bits_per_row.getD 0 0 = 9
    · rw [decode_valid _ h1 h2]
      refine ⟨iff_of_true rfl ⟨h1, h2⟩, fun _ => ?_, fun habs => absurd rfl habs⟩
      refine ⟨_, _, ?_, ?_, ?_, rfl⟩
      · exact Int.ofNat_nonneg _
      · calc Int.ofNat (rowValueMSB (bitbuffer.bb.getD 0 []) 9 &&& 0x0F) ≤
              Int.ofNat 15 := by
              have := and_fifteen_lt (rowValueMSB (bitbuffer.bb.getD 0 []) 9)
              exact Int.ofNat_le.mpr (by omega)
          _ = 15 := rfl
      · by_cases hb :
          (rowValueMSB (bitbuffer.bb.getD 0 []) 9 >>> 4) &&& 0x01 = 0
        · right
          rw [if_pos hb]
        · left
          rw [if_neg hb]
    · rw [decode_abort_length_helper _ h1 h2]
      exact ⟨iff_of_false (by decide) (fun hv => h2 hv.2),
        fun habs => absurd habs (by decide), fun _ => rfl⟩
  · rw [decode_abort_early_helper _ h1]
    exact ⟨iff_of_false (by decide) (fun hv => h1 hv.1),
      fun habs => absurd habs (by decide), fun _ => rfl⟩

/-- C5: the four concrete single-row 9-bit inputs of the spec decode to
the stated `id` and `battery_ok` values: `0b000000000` gives
battery_ok=1, id=0; `0b000010000` gives battery_ok=0, id=0; `0b000001111`
gives battery_ok=1, id=15; `0b111111111` gives battery_ok=0, id=15. -/
theorem C5_concrete_scenarios :
    mightymule_fm231_decode bufA =
      (1, [[("model", data_value.str "MightyMule-FM231"),
            ("id", data_value.int 0),
            ("battery_ok", data_value.int 1)]]) ∧
    mightymule_fm231_decode bufB =
      (1, [[("model", data_value.str "MightyMule-FM231"),
            ("id", data_value.int 0),
            ("battery_ok", data_value.int 0)]]) ∧
    mightymule_fm231_decode bufC =
      (1, [[("model", data_value.str "MightyMule-FM231"),
            ("id", data_value.int 15),
            ("battery_ok", data_value.int 1)]]) ∧
    mightymule_fm231_decode bufD =
      (1, [[("model", data_value.str "MightyMule-FM231"),
            ("id", data_value.int 15),
            ("battery_ok", data_value.int 0)]]) :=
  ⟨rfl, rfl, rfl, rfl⟩

/-- C6: the decoder is deterministic and stateless: running the
state-passing embedding a second time, on the buffer exactly as the first
run left it, returns the same code and byte-identical records. -/
theorem C6_deterministic (bitbuffer : bitbuffer_t) :
    mightymule_fm231_decode_st ((mightymule_fm231_decode_st bitbuffer).2) =
      mightymule_fm231_decode_st bitbuffer := by
  rw [decode_st_snd]

/-- C7: once validation passes, the extraction's two byte reads are at
indices 0 and 1 of the row's storage, inside the bytes covering the
validated 9-bit range; the access-checked decode therefore succeeds and
agrees with the unchecked one whenever the row storage holds at least the
2 bytes that cover 9 bits. -/
theorem C7_extraction_in_bounds (bitbuffer : bitbuffer_t)
    (h1 : bitbuffer.num_rows = 1)
    (h2 : bitbuffer.bits_per_row.getD 0 0 = 9)
    (h3 : 2 ≤ (bitbuffer.bb.getD 0 []).length) :
    mightymule_fm231_decode_checked bitbuffer =
      some (mightymule_fm231_decode bitbuffer) := by
  unfold mightymule_fm231_decode_checked mightymule_fm231_decode
    MIGHTYMULE_FM231_BITLEN
  rw [if_neg (by omega), if_neg (by omega), if_neg (by omega),
    if_neg (by omega)]
  generalize bitbuffer.bb.getD 0 [] = l at h3 ⊢
  cases l with
  | nil => simp at h3
  | cons a t =>
    cases t with
    | nil => simp at h3
    | cons c t2 => rfl

/-- Witness for C7 at the concrete buffer `bufA`. -/
theorem C7_witness :
    bufA.num_rows = 1 ∧ bufA.bits_per_row.getD 0 0 = 9 ∧
    2 ≤ (bufA.bb.getD 0 []).length ∧
    mightymule_fm231_decode_checked bufA =
      some (mightymule_fm231_decode bufA) :=
  ⟨rfl, rfl, by decide, C7_extraction_in_bounds bufA rfl rfl (by decide)⟩

/-- C8: two valid single-row 9-bit buffers that agree on bits 4..8
(0-indexed from the most-significant end) decode identically — same
return code and byte-identical records, hence identical `id` and
`battery_ok` — however the 4 preamble bits differ. -/
theorem C8_preamble_irrelevant (bb1 bb2 : bitbuffer_t)
    (h1 : bb1.num_rows = 1) (h2 : bb1.bits_per_row.getD 0 0 = 9)
    (h3 : bb2.num_rows = 1) (h4 : bb2.bits_per_row.getD 0 0 = 9)
    (hagree : ∀ i, 4 ≤ i → i ≤ 8 →
      rowBit (bb1.bb.getD 0 []) i = rowBit (bb2.bb.getD 0 []) i) :
    mightymule_fm231_decode bb1 = mightymule_fm231_decode bb2 := by
  rw [decode_valid _ h1 h2, decode_valid _ h3 h4]
  have hmod := rowValue_mod32_eq _ _ hagree
  have hid : rowValueMSB (bb1.bb.getD 0 []) 9 &&& 0x0F =
      rowValueMSB (bb2.bb.getD 0 []) 9 &&& 0x0F := by
    rw [and_fifteen_eq_mod, and_fifteen_eq_mod]
    omega
  have hbat : (rowValueMSB (bb1.bb.getD 0 []) 9 >>> 4) &&& 0x01 =
      (rowValueMSB (bb2.bb.getD 0 []) 9 >>> 4) &&& 0x01 := by
    rw [Nat.shiftRight_eq_div_pow, Nat.shiftRight_eq_div_pow,
      Nat.and_one_is_mod, Nat.and_one_is_mod,
      show (2 : Nat) ^ 4 = 16 from rfl]
    omega
  rw [hid, hbat]

/-- Witness for C8 at `bufB` (`0b000010000`) and `bufBalt`
(`0b111110000`), which differ exactly in the 4 preamble bits. -/
theorem C8_witness :
    bufB.num_rows = 1 ∧ bufB.bits_per_row.getD 0 0 = 9 ∧
    bufBalt.num_rows = 1 ∧ bufBalt.bits_per_row.getD 0 0 = 9 ∧
    mightymule_fm231_decode bufB = mightymule_fm231_decode bufBalt :=
  ⟨rfl, rfl, rfl, rfl,
    C8_preamble_irrelevant bufB bufBalt rfl rfl rfl rfl
      (by
        intro i hi4 hi8
        interval_cases i <;> rfl)⟩

/-- C9: every record the decoder emits has exactly the keys `model`,
`id`, `battery_ok` in this order, and the static registration list
`output_fields` is exactly this list. -/
theorem C9_fields_match (bitbuffer : bitbuffer_t) (r : data_t)
    (hr : r ∈ (mightymule_fm231_decode bitbuffer).2) :
    r.map Prod.fst = output_fields ∧
    output_fields = ["model", "id", "battery_ok"] := by
  refine ⟨?_, rfl⟩
  by_cases h1 : bitbuffer.num_rows = 1
  · by_cases h2 : bitbuffer.bits_per_row.getD 0 0 = 9
    · rw [decode_valid _ h1 h2] at hr
      simp only [List.mem_singleton] at hr
      subst hr
      rfl
    · rw [decode_abort_length_helper _ h1 h2] at hr
      simp at hr
  · rw [decode_abort_early_helper _ h1] at hr
    simp at hr

/-- Witness for C9 at the record emitted for `bufA`. -/
theorem C9_witness :
    ([("model", data_value.str "MightyMule-FM231"),
      ("id", data_value.int 0),
      ("battery_ok", data_value.int 1)] : data_t) ∈
        (mightymule_fm231_decode bufA).2 ∧
    (([("model", data_value.str "MightyMule-FM231"),
       ("id", data_value.int 0),
       ("battery_ok", data_value.int 1)] : data_t).map Prod.fst =
         output_fields ∧
     output_fields = ["model", "id", "battery_ok"]) :=
  ⟨by decide, C9_fields_match bufA _ (by decide)⟩

/-- C10: the decode routine only reads the buffer: the state-passing
embedding leaves the buffer (row count, per-row bit lengths, row bytes)
unchanged on every input, and computes the same code and records as the
pure embedding. -/
theorem C10_read_only (bitbuffer : bitbuffer_t) :
    (mightymule_fm231_decode_st bitbuffer).2 = bitbuffer ∧
    (mightymule_fm231_decode_st bitbuffer).1 =
      mightymule_fm231_decode bitbuffer :=
  ⟨decode_st_snd bitbuffer, decode_st_fst bitbuffer⟩

end MightyMule
